import Mathlib

/-!
Verification of the newrelic-cli installation recipe engine against its
natural-language specification.

The definitions below are a shallow embedding of the Go sources:

* `internal/install/go_task_recipe_executor.go` — `execute`, `setSystemVars`,
  `setInputVars` (the variable resolver and recipe executor);
* `internal/credentials/profiles.go` — `Credentials.Default`;
* `internal/config/config.go` — `Config.Set`, `validConfigKeys`,
  `stringInStrings`.

External collaborators (the go-task engine, promptui, the OS environment,
the filesystem, viper) are modelled as injected outcomes: each fallible
external call becomes an `Except String` value supplied in an environment
record, and the embedding mirrors the Go control flow over those outcomes.
-/

namespace NewRelicCLI

/-- go-task `taskfile.Vars`: an insertion-ordered string map.  We model it as
an association list whose keys are unique, with `Set` replacing in place. -/
abbrev Vars := List (String × String)

/-- The empty `taskfile.Vars{}` literal. -/
def Vars.empty : Vars := []

/-- `taskfile.Vars.Set`: overwrite the binding in place when the key is
present, otherwise append it (insertion order is preserved). -/
def Vars.set : Vars → String → String → Vars
  | [], k, val => [(k, val)]
  | (k', v') :: rest, k, val =>
    if k' = k then (k, val) :: rest else (k', v') :: Vars.set rest k val

/-- Lookup in `taskfile.Vars` (the `Static` field of the stored `Var`). -/
def Vars.get : Vars → String → Option String
  | [], _ => none
  | (k', v') :: rest, k => if k' = k then some v' else Vars.get rest k

/-- `taskfile.Vars.Merge(other)`: `Set` every binding of `other` into the
receiver, in `other`'s order; a later `Set` overwrites a same-named binding. -/
def Vars.merge (t other : Vars) : Vars :=
  other.foldl (fun acc kv => Vars.set acc kv.1 kv.2) t

/-- `variableConfig` of the recipe file: fields `name`, `prompt`, `default`
(the YAML keys); in Go all three are plain strings, absent ones are `""`. -/
structure VariableConfig where
  Name : String
  Prompt : String
  Default : String
deriving DecidableEq

/-- The recipe file after `r.ToRecipeFile()`: only the declared input
variables matter to the embedding; the `Install` step list is opaque and is
handed to the task engine unchanged. -/
structure RecipeFile where
  InputVars : List VariableConfig
deriving DecidableEq

/-- `discoveryManifest`: the host facts consumed by `setSystemVars`. -/
structure DiscoveryManifest where
  os : String
  platform : String
  platformFamily : String
  platformVersion : String
  kernelArch : String
  kernelVersion : String
deriving DecidableEq

/-- `credentials.Profile` (profiles.go).  Only `LicenseKey` is read by the
executor; the other fields are carried for fidelity. -/
structure Profile where
  APIKey : String
  InsightsInsertKey : String
  Region : String
  AccountID : Int
  LicenseKey : String
deriving DecidableEq

/-- The zero value of the Go struct `Profile`: what indexing a
`map[string]Profile` with an absent key yields. -/
def Profile.zero : Profile := ⟨"", "", "", 0, ""⟩

/-- `credentials.Credentials`: the fields `Default` and `execute` read.
`Profiles` is a Go `map[string]Profile`, modelled as an association list
with unique keys. -/
structure Credentials where
  DefaultProfile : String
  Profiles : List (String × Profile)
deriving DecidableEq

/-- Go map indexing `c.Profiles[name]`: the zero `Profile` when absent. -/
def lookupProfileOrZero (ps : List (String × Profile)) (nm : String) : Profile :=
  match List.lookup nm ps with
  | some p => p
  | none => Profile.zero

/-- `Credentials.Default` (profiles.go lines 58-67): the profile named by
`DefaultProfile` when that name is non-empty and present, else `nil`
(here `none`).  The Go method only reads `c`; the embedding is a pure
function of `c`, which is exactly that read-only behaviour. -/
def Credentials.Default (c : Credentials) : Option Profile :=
  if c.DefaultProfile ≠ "" then
    match List.lookup c.DefaultProfile c.Profiles with
    | some val => some val
    | none => none
  else
    none

/-- `os.Getenv`: the process environment maps a name to `some value` when the
variable is set and `none` when unset; `Getenv` returns the empty string for
an unset variable, conflating the two. -/
def getenv (env : String → Option String) (nm : String) : String :=
  (env nm).getD ""

/-- One `promptui.Prompt{Label: ..., Default: ...}.Run()` invocation, as
recorded by the embedding. -/
structure PromptCall where
  label : String
  dflt : String
deriving DecidableEq

/-- The body of the `setInputVars` loop for one `variableConfig`
(go_task_recipe_executor.go lines 112-143): read the environment; when the
value is empty, build the label (`prompt` when non-empty, else the generated
message), pre-fill the default when non-empty, and run the prompt — a prompt
error becomes the error `"prompt failed: <e>"`; otherwise bind the
environment value.  The second component records the prompt calls made. -/
def resolveVar (env : String → Option String)
    (promptFn : String → String → Except String String)
    (cfg : VariableConfig) :
    Except String String × List PromptCall :=
  let envValue := getenv env cfg.Name
  if envValue = "" then
    let msg := if cfg.Prompt ≠ "" then cfg.Prompt
               else "value for " ++ cfg.Name ++ " required"
    let dflt := if cfg.Default ≠ "" then cfg.Default else ""
    match promptFn msg dflt with
    | .error e => (.error ("prompt failed: " ++ e), [⟨msg, dflt⟩])
    | .ok result => (.ok result, [⟨msg, dflt⟩])
  else
    (.ok envValue, [])

/-- `setInputVars` (go_task_recipe_executor.go lines 111-146): resolve each
declared variable in order, merging each resolved binding into the taskfile
vars `t`; the first failing resolution aborts with its error.  The second
component records every prompt call made before the outcome. -/
def setInputVars (env : String → Option String)
    (promptFn : String → String → Except String String)
    (t : Vars) : List VariableConfig → Except String Vars × List PromptCall
  | [] => (.ok t, [])
  | cfg :: rest =>
    match resolveVar env promptFn cfg with
    | (.error e, calls) => (.error e, calls)
    | (.ok val, calls) =>
      let r := setInputVars env promptFn
        (Vars.merge t (Vars.set Vars.empty cfg.Name val)) rest
      (r.1, calls ++ r.2)

/-- `setSystemVars` (go_task_recipe_executor.go lines 99-109): merge the six
host facts, in source order, into the taskfile vars. -/
def setSystemVars (t : Vars) (m : DiscoveryManifest) : Vars :=
  Vars.merge t
    (Vars.set (Vars.set (Vars.set (Vars.set (Vars.set (Vars.set Vars.empty
      "OS" m.os)
      "Platform" m.platform)
      "PlatformFamily" m.platformFamily)
      "PlatformVersion" m.platformVersion)
      "KernelArch" m.kernelArch)
      "KernelVersion" m.kernelVersion)

/-- How one `execute` invocation ends: a normal return (`ok` / `error`), or a
Go runtime panic (`panicked`). -/
inductive ExecOutcome where
  | ok
  | error (msg : String)
  | panicked (msg : String)
deriving DecidableEq

/-- What one `execute` invocation did: its outcome, whether the temporary
task file was created and whether it was removed (the deferred
`os.Remove`), whether `e.Run` was invoked, the taskfile vars in force at
that invocation (when reached), and the prompt calls made. -/
structure ExecTrace where
  outcome : ExecOutcome
  tempFileCreated : Bool
  tempFileRemoved : Bool
  engineRan : Bool
  finalVars : Option Vars
  promptCalls : List PromptCall
deriving DecidableEq

/-- The injected outcomes of `execute`'s external calls, in source order:
`r.ToRecipeFile()`, `yaml.Marshal(f.Install)`, `ioutil.TempFile` (its name on
success), `file.Write`, `e.Setup()`, `yaml.Unmarshal`, the taskfile's own
vars after `Setup`, the globals of `taskargs.ParseV3()`, the credentials
handed to the `WithCredentials` callback, the process environment, the
prompt capability, and `e.Run`'s result. -/
structure ExecEnv where
  toRecipeFile : Except String RecipeFile
  marshal : Except String Unit
  tempFile : Except String String
  writeFile : Except String Unit
  setup : Except String Unit
  unmarshal : Except String Unit
  taskfileVars : Vars
  globals : Vars
  creds : Credentials
  env : String → Option String
  promptFn : String → String → Except String String
  runner : Except String Unit

/-- `c.Profiles[c.DefaultProfile].LicenseKey` (execute, line 73): zero-value
indexing when the default profile is absent. -/
def licenseKeyOf (c : Credentials) : String :=
  (lookupProfileOrZero c.Profiles c.DefaultProfile).LicenseKey

/-- `e.Taskfile.Vars.Merge(globals)` (execute, line 69). -/
def varsAfterGlobals (E : ExecEnv) : Vars :=
  Vars.merge E.taskfileVars E.globals

/-- The vars after the `WithCredentials` block (execute, lines 71-80):
`v.Set("NR_LICENSE_KEY", ...)` then `e.Taskfile.Vars.Merge(&v)` — the merge
happens whether or not the key turned out empty. -/
def varsAfterCredentials (E : ExecEnv) : Vars :=
  Vars.merge (varsAfterGlobals E) (Vars.set Vars.empty "NR_LICENSE_KEY" (licenseKeyOf E.creds))

/-- The vars after `setSystemVars(e.Taskfile, m)` (execute, line 86). -/
def varsAfterSystem (E : ExecEnv) (m : DiscoveryManifest) : Vars :=
  setSystemVars (varsAfterCredentials E) m

/-- `execute` (go_task_recipe_executor.go lines 26-97), over the injected
external outcomes.  Notable control-flow facts mirrored from the source:

* `defer os.Remove(file.Name())` (line 41) stands **before** the `err`
  check of `ioutil.TempFile` (line 42); Go evaluates the deferred call's
  argument at the `defer` statement, so when `TempFile` failed, `file` is
  `nil` and `file.Name()` dereferences a nil pointer — a runtime panic,
  not a normal error return.
* Once the temporary file exists, the registered defer removes it on every
  later return path (and during a panic unwind), so every exit records
  `tempFileRemoved := true`.
* The license-key error (lines 74-76, 82-84), a `setInputVars` error
  (lines 88-90) and an `e.Run` error (lines 92-94) each return before the
  next stage; only the last of these has invoked the task engine. -/
def execute (E : ExecEnv) (m : DiscoveryManifest) : ExecTrace :=
  match E.toRecipeFile with
  | .error e => ⟨.error e, false, false, false, none, []⟩
  | .ok f =>
    match E.marshal with
    | .error e => ⟨.error e, false, false, false, none, []⟩
    | .ok _ =>
      match E.tempFile with
      | .error _ =>
        ⟨.panicked "runtime error: invalid memory address or nil pointer dereference",
          false, false, false, none, []⟩
      | .ok _ =>
        match E.writeFile with
        | .error e => ⟨.error e, true, true, false, none, []⟩
        | .ok _ =>
          match E.setup with
          | .error e => ⟨.error e, true, true, false, none, []⟩
          | .ok _ =>
            match E.unmarshal with
            | .error e => ⟨.error e, true, true, false, none, []⟩
            | .ok _ =>
              if licenseKeyOf E.creds = "" then
                ⟨.error "license key not found in default profile",
                  true, true, false, none, []⟩
              else
                match setInputVars E.env E.promptFn (varsAfterSystem E m) f.InputVars with
                | (.error e, calls) => ⟨.error e, true, true, false, none, calls⟩
                | (.ok v3, calls) =>
                  match E.runner with
                  | .error e => ⟨.error e, true, true, true, some v3, calls⟩
                  | .ok _ => ⟨.ok, true, true, true, some v3, calls⟩

/-! ### The configuration store (internal/config/config.go) -/

/-- The `mapstructure` tags of `Config`'s fields in declaration order, as
`validConfigKeys` (config.go lines 334-345) enumerates them by reflection.
`Config` has four fields: `LogLevel`, `PluginDir` and `SendUsageData` carry
tags, and the unexported handle `cfgViper *viper.Viper` carries no tag, so
`field.Tag.Get("mapstructure")` contributes the empty string for it. -/
def configFieldTags : List String :=
  ["logLevel", "pluginDir", "sendUsageData", ""]

/-- `validConfigKeys()` (config.go lines 334-345). -/
def validConfigKeys : List String := configFieldTags

/-- `strings.EqualFold` restricted to the ASCII keys in play: case folding
is character-wise lower-casing. -/
def eqFold (a b : String) : Bool :=
  a.data.map Char.toLower == b.data.map Char.toLower

/-- `stringInStrings` (config.go lines 347-355): membership up to
`strings.EqualFold`. -/
def stringInStrings (s : String) (ss : List String) : Bool :=
  ss.any (fun v => eqFold v s)

/-- How a `Config.Set(key, value)` call ends: rejected at the key-validity
gate (carrying the offending key, written into the returned error), failed
inside the lower-level `c.set` (viper write / validation), or accepted and
written. -/
inductive SetOutcome where
  | invalidKey (key : String)
  | setFailed (e : String)
  | wrote (key value : String)
deriving DecidableEq

/-- `Config.Set` (config.go lines 125-138): reject the key unless
`stringInStrings(key, validConfigKeys())`; otherwise run the lower-level
`c.set` (injected here as `setImpl`, since it talks to viper and the
filesystem) and report the write. -/
def configSet (setImpl : String → String → Except String Unit)
    (key value : String) : SetOutcome :=
  if ¬ stringInStrings key validConfigKeys then
    .invalidKey key
  else
    match setImpl key value with
    | .error e => .setFailed e
    | .ok _ => .wrote key value

/-! ### Derived notions used to state the theorems -/

/-- Left-biased choice on `Option String` (spelled out for easy induction). -/
def oalt (a b : Option String) : Option String :=
  match a with
  | some v => some v
  | none => b

/-- The value `setInputVars` would bind a name `n` to, read off the declared
variable list: the **last** declared variable named `n` wins (each loop
iteration merges over the previous binding), and a variable contributes only
when its own resolution succeeded. -/
def inputResolved (env : String → Option String)
    (promptFn : String → String → Except String String) :
    List VariableConfig → String → Option String
  | [], _ => none
  | cfg :: rest, n =>
    oalt (inputResolved env promptFn rest n)
      (if cfg.Name = n then
        match (resolveVar env promptFn cfg).1 with
        | .ok val => some val
        | .error _ => none
      else none)

/-- Point update of a process environment: set, clear or change one
variable. -/
def updateEnv (env : String → Option String) (nm : String) (v : Option String) :
    String → Option String :=
  fun k => if k = nm then v else env k

/-! ### Concrete instances used by the closed theorems -/

/-- A credential profile holding a license key. -/
def sampleProfile : Profile := ⟨"", "", "", 0, "license-123"⟩

/-- A concrete discovery manifest. -/
def sampleManifest : DiscoveryManifest :=
  ⟨"linux", "ubuntu", "debian", "20.04", "x86_64", "5.4.0"⟩

/-- Credentials whose default profile holds a license key. -/
def sampleCreds : Credentials := ⟨"default", [("default", sampleProfile)]⟩

/-- Every external stage succeeds and the recipe declares no input
variable. -/
def envPlain : ExecEnv :=
  { toRecipeFile := .ok ⟨[]⟩, marshal := .ok (), tempFile := .ok "task-def",
    writeFile := .ok (), setup := .ok (), unmarshal := .ok (),
    taskfileVars := [], globals := [], creds := sampleCreds,
    env := fun _ => none, promptFn := fun _ _ => .error "no terminal",
    runner := .ok () }

/-- The recipe declares an input variable named `OS` — colliding with a
system binding — and the process environment sets `OS=os-from-env`. -/
def envOSCollision : ExecEnv :=
  { envPlain with
    toRecipeFile := .ok ⟨[⟨"OS", "", ""⟩]⟩,
    env := fun nm => if nm = "OS" then some "os-from-env" else none }

/-- The taskfile vars `execute envOSCollision sampleManifest` assembles. -/
def osCollisionVars : Vars :=
  [("NR_LICENSE_KEY", "license-123"), ("OS", "os-from-env"),
   ("Platform", "ubuntu"), ("PlatformFamily", "debian"),
   ("PlatformVersion", "20.04"), ("KernelArch", "x86_64"),
   ("KernelVersion", "5.4.0")]

/-- The recipe declares `PORT`, the environment does not set it, and the
prompt is aborted. -/
def envPromptAborted : ExecEnv :=
  { envPlain with
    toRecipeFile := .ok ⟨[⟨"PORT", "", ""⟩]⟩,
    promptFn := fun _ _ => .error "interrupt" }

/-- The default credential profile exists but holds no license key. -/
def envNoLicense : ExecEnv :=
  { envPlain with creds := ⟨"default", [("default", ⟨"", "", "", 0, ""⟩)]⟩ }

/-- `ioutil.TempFile` fails. -/
def envTempFileLost : ExecEnv :=
  { envPlain with tempFile := .error "open /tmp: permission denied" }

/-- A process environment setting only `PORT=9090`. -/
def envPortSet : String → Option String :=
  fun nm => if nm = "PORT" then some "9090" else none

/-- A lower-level `c.set` that always succeeds (its viper write is not under
study). -/
def setAlwaysOk : String → String → Except String Unit := fun _ _ => .ok ()

/-! ## Lemmas about the ordered-map `Vars` and the resolver loop -/

theorem Vars.get_set (t : Vars) (k val n : String) :
    Vars.get (Vars.set t k val) n = if k = n then some val else Vars.get t n := by
  induction t with
  | nil => simp [Vars.set, Vars.get]
  | cons hd tl ih =>
    obtain ⟨k', v'⟩ := hd
    by_cases h1 : k' = k
    · subst h1
      by_cases h2 : k' = n <;> simp [Vars.set, Vars.get, h2]
    · by_cases h2 : k' = n
      · subst h2
        have h3 : ¬ k = k' := fun h => h1 h.symm
        simp [Vars.set, Vars.get, h1, h3]
      · simp [Vars.set, Vars.get, h1, h2, ih]

theorem Vars.merge_single (t : Vars) (k val : String) :
    Vars.merge t (Vars.set Vars.empty k val) = Vars.set t k val := rfl

theorem if_default_collapse (d : String) : (if d ≠ "" then d else "") = d := by
  by_cases h : d = "" <;> simp [h]

theorem oalt_assoc (a : Option String) (c : Prop) [Decidable c] (val : String)
    (b : Option String) :
    oalt (oalt a (if c then some val else none)) b
      = oalt a (if c then some val else b) := by
  cases a <;> by_cases h : c <;> simp [oalt, h]

/-- What `setInputVars` binds each name to when it succeeds: the value of the
last declared variable of that name (when one is declared and resolved), and
the incoming binding otherwise. -/
theorem setInputVars_get (env : String → Option String)
    (p : String → String → Except String String)
    (cfgs : List VariableConfig) :
    ∀ (t v : Vars), (setInputVars env p t cfgs).1 = .ok v →
      ∀ n, Vars.get v n = oalt (inputResolved env p cfgs n) (Vars.get t n) := by
  induction cfgs with
  | nil =>
    intro t v h n
    simp [setInputVars] at h
    subst h
    simp [inputResolved, oalt]
  | cons cfg rest ih =>
    intro t v h n
    rcases hr : resolveVar env p cfg with ⟨res, calls⟩
    rcases res with e | val
    · simp only [setInputVars, hr] at h
      simp at h
    · simp only [setInputVars, hr] at h
      have hv := ih _ v h n
      rw [Vars.merge_single, Vars.get_set] at hv
      rw [hv]
      simp only [inputResolved, hr]
      rw [oalt_assoc]

/-- `resolveVar` reads the process environment only through
`os.Getenv(cfg.Name)`. -/
theorem resolveVar_env_congr (env1 env2 : String → Option String)
    (p : String → String → Except String String) (cfg : VariableConfig)
    (h : getenv env1 cfg.Name = getenv env2 cfg.Name) :
    resolveVar env1 p cfg = resolveVar env2 p cfg := by
  simp only [resolveVar, h]

/-- `setInputVars` reads the process environment only through `os.Getenv`:
two environments with the same `Getenv` view resolve identically. -/
theorem setInputVars_env_congr (env1 env2 : String → Option String)
    (p : String → String → Except String String)
    (h : ∀ k, getenv env1 k = getenv env2 k) :
    ∀ (cfgs : List VariableConfig) (t : Vars),
      setInputVars env1 p t cfgs = setInputVars env2 p t cfgs := by
  intro cfgs
  induction cfgs with
  | nil => intro t; rfl
  | cons cfg rest ih =>
    intro t
    simp only [setInputVars, resolveVar_env_congr env1 env2 p cfg (h cfg.Name), ih]

/-- When one declared variable fails to resolve and every variable before it
resolved, the whole `setInputVars` loop fails with that variable's error. -/
theorem setInputVars_error_at (env : String → Option String)
    (p : String → String → Except String String)
    (cfg : VariableConfig) (e : String)
    (he : (resolveVar env p cfg).1 = .error e) :
    ∀ (pre rest : List VariableConfig) (t : Vars),
      (∀ c ∈ pre, ∃ val, (resolveVar env p c).1 = .ok val) →
      (setInputVars env p t (pre ++ cfg :: rest)).1 = .error e := by
  intro pre
  induction pre with
  | nil =>
    intro rest t _
    rcases hr : resolveVar env p cfg with ⟨res, calls⟩
    rw [hr] at he
    simp at he
    subst he
    simp [setInputVars, hr]
  | cons c pre' ih =>
    intro rest t hpre
    obtain ⟨val, hval⟩ := hpre c (List.mem_cons_self c pre')
    rcases hr : resolveVar env p c with ⟨res, calls⟩
    rw [hr] at hval
    simp at hval
    subst hval
    simp only [List.cons_append, setInputVars, hr]
    exact ih rest _ (fun c' hc' => hpre c' (List.mem_cons_of_mem c hc'))

/-- `execute` once its file-handling preamble succeeded: what remains is the
license-key check, input-variable resolution and the engine run. -/
theorem execute_stages (E : ExecEnv) (m : DiscoveryManifest) (f : RecipeFile)
    (s : String)
    (hf : E.toRecipeFile = .ok f) (hm : E.marshal = .ok ())
    (ht : E.tempFile = .ok s) (hw : E.writeFile = .ok ())
    (hs : E.setup = .ok ()) (hu : E.unmarshal = .ok ()) :
    execute E m =
      if licenseKeyOf E.creds = "" then
        ⟨.error "license key not found in default profile", true, true, false, none, []⟩
      else
        match setInputVars E.env E.promptFn (varsAfterSystem E m) f.InputVars with
        | (.error e, calls) => ⟨.error e, true, true, false, none, calls⟩
        | (.ok v3, calls) =>
          match E.runner with
          | .error e => ⟨.error e, true, true, true, some v3, calls⟩
          | .ok _ => ⟨.ok, true, true, true, some v3, calls⟩ := by
  unfold execute
  rw [hf, hm, ht, hw, hs, hu]

/-- On the prompt path, `resolveVar` makes exactly one prompt call: labelled
with `prompt` when that is non-empty, else with the generated message, and
pre-filled with `default` (a no-op pre-fill when `default` is empty, since
`promptui.Prompt`'s zero `Default` is already the empty string). -/
theorem resolveVar_prompt_calls (env : String → Option String)
    (p : String → String → Except String String) (cfg : VariableConfig)
    (h : getenv env cfg.Name = "") :
    (resolveVar env p cfg).2
      = [⟨if cfg.Prompt ≠ "" then cfg.Prompt
          else "value for " ++ cfg.Name ++ " required", cfg.Default⟩] := by
  simp only [resolveVar, if_pos h, if_default_collapse]
  cases p (if cfg.Prompt ≠ "" then cfg.Prompt
    else "value for " ++ cfg.Name ++ " required") cfg.Default <;> rfl

/-- A failing prompt makes `resolveVar` fail with the wrapped error. -/
theorem resolveVar_prompt_error (env : String → Option String)
    (p : String → String → Except String String) (cfg : VariableConfig)
    (pe : String)
    (henv : getenv env cfg.Name = "")
    (hp : p (if cfg.Prompt ≠ "" then cfg.Prompt
        else "value for " ++ cfg.Name ++ " required") cfg.Default = .error pe) :
    (resolveVar env p cfg).1 = .error ("prompt failed: " ++ pe) := by
  simp only [resolveVar, if_pos henv, if_default_collapse, hp]

/-- `strings.EqualFold("", key)` fails exactly for a non-empty `key`. -/
theorem eqFold_empty_left (key : String) : eqFold "" key = false ↔ key ≠ "" := by
  unfold eqFold
  rw [beq_eq_false_iff_ne]
  constructor
  · intro h he
    subst he
    exact h rfl
  · intro hk hmap
    apply hk
    apply String.ext
    have h2 : key.data.map Char.toLower = [] := by
      rw [← hmap]
      rfl
    exact List.map_eq_nil_iff.mp h2

/-- Membership in `validConfigKeys` up to `EqualFold`, spelled out over the
four field tags (the last being the untagged `cfgViper` field's empty
tag). -/
theorem stringInStrings_eval (key : String) :
    stringInStrings key validConfigKeys
      = (eqFold "logLevel" key || (eqFold "pluginDir" key
          || (eqFold "sendUsageData" key || eqFold "" key))) := by
  simp [stringInStrings, validConfigKeys, configFieldTags]

/-! ## The claims -/

/-- Claim C2 (confirmed): a declared input variable whose identically-named
environment variable is set to a non-empty string is bound to that
environment value, the prompt capability is never invoked for it (no prompt
call is recorded), and neither the prompt text, the default value nor the
prompt capability influence the result (none of them occur in it). -/
theorem claim2_env_precedence (env : String → Option String)
    (p : String → String → Except String String) (cfg : VariableConfig)
    (h : getenv env cfg.Name ≠ "") :
    resolveVar env p cfg = (.ok (getenv env cfg.Name), []) := by
  simp only [resolveVar, if_neg h]

/-- Witness for C2: `PORT` set to `"9090"` in the environment resolves to
`"9090"` with no prompt call, ignoring prompt text and default. -/
theorem claim2_witness :
    resolveVar envPortSet (fun _ _ => .error "no terminal")
        ⟨"PORT", "enter the port", "8080"⟩
      = (.ok "9090", []) :=
  claim2_env_precedence envPortSet (fun _ _ => .error "no terminal")
    ⟨"PORT", "enter the port", "8080"⟩ (by decide)

/-- Claim C7 (confirmed): a declared variable reaching the prompt path is
prompted with label `promptText` when that is non-empty and otherwise with
the generated message "value for <name> required", and the prompt default
is pre-filled with `defaultValue` (when `defaultValue` is empty the
pre-fill is skipped and the prompt default remains empty — the same
value). -/
theorem claim7_prompt_label (env : String → Option String)
    (p : String → String → Except String String) (cfg : VariableConfig)
    (h : getenv env cfg.Name = "") :
    (resolveVar env p cfg).2
      = [⟨if cfg.Prompt ≠ "" then cfg.Prompt
          else "value for " ++ cfg.Name ++ " required", cfg.Default⟩] :=
  resolveVar_prompt_calls env p cfg h

/-- Witness for C7: `PORT` with no prompt text and default `"8080"` is
prompted with the generated label and the default pre-filled. -/
theorem claim7_witness :
    (resolveVar (fun _ => none) (fun _ _ => .ok "3000")
        ⟨"PORT", "", "8080"⟩).2
      = [⟨"value for PORT required", "8080"⟩] :=
  claim7_prompt_label (fun _ => none) (fun _ _ => .ok "3000")
    ⟨"PORT", "", "8080"⟩ (by decide)

/-- Claim C5 (confirmed): an environment variable set to the empty string is
treated identically to an unset one — the whole `setInputVars` run produces
the same result (same bindings, same prompt calls, same success or
failure) — and in both cases a variable of that name falls through to the
prompt path, with its prompt text or the generated message as label and its
default pre-filled. -/
theorem claim5_empty_equals_unset (env : String → Option String)
    (p : String → String → Except String String) (t : Vars)
    (cfgs : List VariableConfig) (nm : String) :
    (setInputVars (updateEnv env nm (some "")) p t cfgs
        = setInputVars (updateEnv env nm none) p t cfgs)
    ∧ (∀ pt d, resolveVar (updateEnv env nm (some "")) p ⟨nm, pt, d⟩
        = resolveVar (updateEnv env nm none) p ⟨nm, pt, d⟩)
    ∧ (∀ pt d, (resolveVar (updateEnv env nm (some "")) p ⟨nm, pt, d⟩).2
        = [⟨if pt ≠ "" then pt else "value for " ++ nm ++ " required", d⟩]) := by
  have hg : ∀ k, getenv (updateEnv env nm (some "")) k
      = getenv (updateEnv env nm none) k := by
    intro k
    by_cases h : k = nm <;> simp [getenv, updateEnv, h]
  refine ⟨setInputVars_env_congr _ _ p hg cfgs t,
    fun pt d => resolveVar_env_congr _ _ p _ (hg nm),
    fun pt d => resolveVar_prompt_calls _ p ⟨nm, pt, d⟩ ?_⟩
  simp [getenv, updateEnv]

/-- Counterexample to claim C1 as stated: a recipe declaring the input
variable `OS` against a manifest with `os = "linux"` while the environment
sets `OS=os-from-env`.  After `execute`'s variable assembly the binding is
the declared variable's resolved value, not the system value: `setInputVars`
runs after `setSystemVars` and `Vars.Merge` overwrites. -/
theorem claim1_counterexample :
    ((execute envOSCollision sampleManifest).finalVars.map
        fun v => Vars.get v "OS")
      = some (some "os-from-env")
    ∧ sampleManifest.os = "linux"
    ∧ "os-from-env" ≠ "linux" :=
  ⟨rfl, rfl, by decide⟩

/-- Claim C1 as amended: the precedence is reversed.  In `execute`'s variable
assembly the declared input variables are merged last, so whenever input
resolution succeeds and produces a value for a name — including the names of
the system bindings `OS`, `Platform`, `PlatformFamily`, `PlatformVersion`,
`KernelArch`, `KernelVersion` and `NR_LICENSE_KEY` — the assembled variable
map binds that name to the input-resolved value, whatever the system
bindings said. -/
theorem claim1_amended (E : ExecEnv) (m : DiscoveryManifest) (f : RecipeFile)
    (s : String) (w : Vars) (n val : String)
    (hf : E.toRecipeFile = .ok f) (hm : E.marshal = .ok ())
    (ht : E.tempFile = .ok s) (hw : E.writeFile = .ok ())
    (hs : E.setup = .ok ()) (hu : E.unmarshal = .ok ())
    (hl : licenseKeyOf E.creds ≠ "")
    (hok : (setInputVars E.env E.promptFn (varsAfterSystem E m) f.InputVars).1
        = .ok w)
    (hres : inputResolved E.env E.promptFn f.InputVars n = some val) :
    (execute E m).finalVars = some w ∧ Vars.get w n = some val := by
  have hget := setInputVars_get E.env E.promptFn f.InputVars
    (varsAfterSystem E m) w hok n
  rw [hres] at hget
  refine ⟨?_, by simpa [oalt] using hget⟩
  rw [execute_stages E m f s hf hm ht hw hs hu, if_neg hl]
  have h1 : setInputVars E.env E.promptFn (varsAfterSystem E m) f.InputVars
      = (.ok w,
        (setInputVars E.env E.promptFn (varsAfterSystem E m) f.InputVars).2) :=
    Prod.ext_iff.mpr ⟨hok, rfl⟩
  rw [h1]
  cases hrn : E.runner <;> rfl

/-- Witness for the amended C1: in the `OS`-collision run the assembled map
binds `OS` to the environment's value. -/
theorem claim1_witness :
    (execute envOSCollision sampleManifest).finalVars = some osCollisionVars
      ∧ Vars.get osCollisionVars "OS" = some "os-from-env" :=
  claim1_amended envOSCollision sampleManifest ⟨[⟨"OS", "", ""⟩]⟩ "task-def"
    osCollisionVars "OS" "os-from-env" rfl rfl rfl rfl rfl rfl
    (by decide) rfl rfl

/-- Claim C3 (confirmed): when a declared variable's prompt is invoked (its
environment value is empty) and the prompt fails, `setInputVars` fails with
the wrapped prompt error, and `execute` returns exactly that error without
invoking the task engine. -/
theorem claim3_prompt_failure (E : ExecEnv) (m : DiscoveryManifest)
    (f : RecipeFile) (s : String) (pre rest : List VariableConfig)
    (cfg : VariableConfig) (pe : String)
    (hf : E.toRecipeFile = .ok f) (hm : E.marshal = .ok ())
    (ht : E.tempFile = .ok s) (hw : E.writeFile = .ok ())
    (hs : E.setup = .ok ()) (hu : E.unmarshal = .ok ())
    (hl : licenseKeyOf E.creds ≠ "")
    (hvars : f.InputVars = pre ++ cfg :: rest)
    (hpre : ∀ c ∈ pre, ∃ val, (resolveVar E.env E.promptFn c).1 = .ok val)
    (henv : getenv E.env cfg.Name = "")
    (hp : E.promptFn (if cfg.Prompt ≠ "" then cfg.Prompt
        else "value for " ++ cfg.Name ++ " required") cfg.Default
      = .error pe) :
    (execute E m).outcome = .error ("prompt failed: " ++ pe)
      ∧ (execute E m).engineRan = false := by
  have he := resolveVar_prompt_error E.env E.promptFn cfg pe henv hp
  have herr := setInputVars_error_at E.env E.promptFn cfg
    ("prompt failed: " ++ pe) he pre rest (varsAfterSystem E m) hpre
  rw [← hvars] at herr
  rw [execute_stages E m f s hf hm ht hw hs hu, if_neg hl]
  have h1 : setInputVars E.env E.promptFn (varsAfterSystem E m) f.InputVars
      = (.error ("prompt failed: " ++ pe),
        (setInputVars E.env E.promptFn (varsAfterSystem E m) f.InputVars).2) :=
    Prod.ext_iff.mpr ⟨herr, rfl⟩
  rw [h1]
  exact ⟨rfl, rfl⟩

/-- Witness for C3: an aborted prompt for `PORT` makes `execute` fail with
the wrapped prompt error, and the task engine never runs. -/
theorem claim3_witness :
    (execute envPromptAborted sampleManifest).outcome
        = .error "prompt failed: interrupt"
      ∧ (execute envPromptAborted sampleManifest).engineRan = false :=
  claim3_prompt_failure envPromptAborted sampleManifest ⟨[⟨"PORT", "", ""⟩]⟩
    "task-def" [] [] ⟨"PORT", "", ""⟩ "interrupt" rfl rfl rfl rfl rfl rfl
    (by decide) rfl (fun c hc => absurd hc (List.not_mem_nil c)) rfl rfl

/-- Claim C4 (confirmed): with an empty license key in the active (default)
profile — including the absent-profile case, where Go map indexing yields
the zero value — `execute` fails with the credential-missing error and the
task engine never runs; and the credential phase binds `NR_LICENSE_KEY` to
exactly the profile's license key. -/
theorem claim4_license_key (E : ExecEnv) (m : DiscoveryManifest)
    (f : RecipeFile) (s : String)
    (hf : E.toRecipeFile = .ok f) (hm : E.marshal = .ok ())
    (ht : E.tempFile = .ok s) (hw : E.writeFile = .ok ())
    (hs : E.setup = .ok ()) (hu : E.unmarshal = .ok ()) :
    (licenseKeyOf E.creds = "" →
        (execute E m).outcome = .error "license key not found in default profile"
          ∧ (execute E m).engineRan = false)
      ∧ Vars.get (varsAfterCredentials E) "NR_LICENSE_KEY"
        = some (licenseKeyOf E.creds) := by
  constructor
  · intro hl
    rw [execute_stages E m f s hf hm ht hw hs hu, if_pos hl]
    exact ⟨rfl, rfl⟩
  · unfold varsAfterCredentials
    rw [Vars.merge_single, Vars.get_set]
    simp

/-- Witness for C4: a default profile with no license key fails `execute`
before the engine runs, and the credential binding is the (empty) key. -/
theorem claim4_witness :
    ((execute envNoLicense sampleManifest).outcome
        = .error "license key not found in default profile"
      ∧ (execute envNoLicense sampleManifest).engineRan = false)
      ∧ Vars.get (varsAfterCredentials envNoLicense) "NR_LICENSE_KEY"
        = some "" := by
  have h := claim4_license_key envNoLicense sampleManifest ⟨[]⟩ "task-def"
    rfl rfl rfl rfl rfl rfl
  exact ⟨h.1 rfl, h.2⟩

/-- Claim C6 (confirmed): on every exit path of `execute` on which the
temporary task file was created, the deferred removal runs — no invocation
leaves the file behind.  (On the paths that exit before `ioutil.TempFile`
succeeded, no file exists at all.) -/
theorem claim6_tempfile_removed (E : ExecEnv) (m : DiscoveryManifest)
    (h : (execute E m).tempFileCreated = true) :
    (execute E m).tempFileRemoved = true := by
  revert h
  unfold execute
  repeat' split
  all_goals intro h
  all_goals first | rfl | exact h

/-- Witness for C6: a fully successful run creates the temporary file and
removes it. -/
theorem claim6_witness :
    (execute envPlain sampleManifest).tempFileCreated = true
      ∧ (execute envPlain sampleManifest).tempFileRemoved = true :=
  ⟨rfl, claim6_tempfile_removed envPlain sampleManifest rfl⟩

/-- Claim C8 (code bug): when `ioutil.TempFile` fails, `execute` does not
return the error.  The `defer os.Remove(file.Name())` at line 41 stands
before the `err` check at line 42, and Go evaluates the deferred call's
argument at the `defer` statement itself, so `file.Name()` dereferences the
nil `*os.File` — a runtime panic.  The embedding records that path as
`panicked`; no temporary file was created on it. -/
theorem claim8_tempfile_panic :
    (execute envTempFileLost sampleManifest).outcome
        = .panicked "runtime error: invalid memory address or nil pointer dereference"
      ∧ (execute envTempFileLost sampleManifest).tempFileCreated = false :=
  ⟨rfl, rfl⟩

/-- Claim C9 (confirmed): `Credentials.Default` yields the profile named by
`DefaultProfile` exactly when that name is non-empty and is a key of
`Profiles`, and yields `nil` exactly when the name is empty or absent; being
a pure function of the credentials value, it modifies nothing. -/
theorem claim9_default_profile (c : Credentials) :
    (∀ p : Profile, Credentials.Default c = some p ↔
        c.DefaultProfile ≠ "" ∧ List.lookup c.DefaultProfile c.Profiles = some p)
      ∧ (Credentials.Default c = none ↔
        c.DefaultProfile = "" ∨ List.lookup c.DefaultProfile c.Profiles = none) := by
  unfold Credentials.Default
  by_cases h : c.DefaultProfile = ""
  · simp [h]
  · cases hl : List.lookup c.DefaultProfile c.Profiles <;> simp [h, hl]

/-- Counterexample to claim C10 as stated: the empty string is not one of
the three configuration field names, yet `Config.Set("", value)` is not
rejected — it passes the key-validity gate and proceeds to write.  The
reflection loop behind `validConfigKeys` visits all four struct fields of
`Config`, and the unexported untagged `cfgViper` field contributes the empty
tag, which `strings.EqualFold` matches against the empty key. -/
theorem claim10_counterexample :
    configSet setAlwaysOk "" "some-value" = .wrote "" "some-value"
      ∧ ¬ ("" ∈ ["logLevel", "pluginDir", "sendUsageData"]) :=
  ⟨rfl, by decide⟩

/-- Claim C10 as amended: `Config.Set(key, value)` returns an error and
writes nothing when `key` neither case-folds to one of `logLevel`,
`pluginDir`, `sendUsageData` nor is the empty string (the empty key is
accepted through the untagged `cfgViper` field's empty tag); any case
variant of a valid field name is accepted. -/
theorem claim10_amended (si : String → String → Except String Unit)
    (key value : String) :
    ((eqFold "logLevel" key = false ∧ eqFold "pluginDir" key = false
        ∧ eqFold "sendUsageData" key = false ∧ key ≠ "") →
      configSet si key value = .invalidKey key)
    ∧ ((eqFold "logLevel" key = true ∨ eqFold "pluginDir" key = true
        ∨ eqFold "sendUsageData" key = true) →
      ∀ k2, configSet si key value ≠ .invalidKey k2) := by
  constructor
  · rintro ⟨h1, h2, h3, h4⟩
    have h5 : eqFold "" key = false := (eqFold_empty_left key).mpr h4
    have h6 : stringInStrings key validConfigKeys = false := by
      rw [stringInStrings_eval, h1, h2, h3, h5]
      rfl
    simp [configSet, h6]
  · intro hor k2
    have h6 : stringInStrings key validConfigKeys = true := by
      rw [stringInStrings_eval]
      rcases hor with h | h | h <;> simp [h]
    cases hsi : si key value <;> simp [configSet, h6, hsi]

/-- Witness for the amended C10: `"bogus"` is rejected while the case
variant `"LOGLEVEL"` is accepted. -/
theorem claim10_witness :
    configSet setAlwaysOk "bogus" "v" = .invalidKey "bogus"
      ∧ configSet setAlwaysOk "LOGLEVEL" "DEBUG" ≠ .invalidKey "LOGLEVEL" := by
  constructor
  · exact (claim10_amended setAlwaysOk "bogus" "v").1
      ⟨by decide, by decide, by decide, by decide⟩
  · exact (claim10_amended setAlwaysOk "LOGLEVEL" "DEBUG").2
      (Or.inl (by decide)) "LOGLEVEL"

end NewRelicCLI
